import Mathlib

/-!
Verification of the Archon MCP health/status reporting layer.

Shallow embedding of:
  - `src/server/api_routes/mcp_api.py`: `get_container_status_http`,
    `get_container_status_docker`, `get_container_status`, `get_mcp_config`
  - `src/mcp_server/health_server.py`: the `/health` and `/sessions` endpoints

External effects (the environment, the network probe outcome, the Docker
runtime state, the credential lookup result, the wall clock) are passed as
explicit parameters; every function is the direct translation of the source
branch structure over those inputs.
-/

/-- JSON-ish values, used for the parsed body of the `/health` probe
response (`data = await response.json()` in `get_container_status_http`).
Numbers are modelled as rationals. -/
inductive JVal where
  | num (q : ℚ)
  | str (s : String)
  | boolean (b : Bool)
  | null
  | arr (xs : List JVal)
  | obj (kvs : List (String × JVal))
deriving Repr

/-- `data.get(key)` on a Python dict modelled as an association list:
`None` when the key is absent, the first binding's value otherwise. -/
def jget (kvs : List (String × JVal)) (key : String) : Option JVal :=
  match kvs.find? (fun kv => kv.1 = key) with
  | some kv => some kv.2
  | none => none

/-- The dict returned by every branch of `get_container_status_http` and
`get_container_status_docker` in `mcp_api.py`.  Keys absent from a branch's
dict literal are modelled as `none` defaults. -/
structure StatusRecord where
  status : String
  uptime : Option JVal
  logs : List String
  container_status : String
  error : Option String := none
  message : Option String := none
  service_info : Option (List (String × JVal)) := none
deriving Repr

/-- Python truthiness of `os.getenv(...)`: `None` and `""` are falsy,
any non-empty string is truthy. -/
def envTruthy : Option String → Bool
  | none => false
  | some s => !s.isEmpty

/-- Python `s.rstrip("/")`: drop every trailing `'/'` character.
Models line 23 of `mcp_api.py`. -/
def rstripSlashes (s : String) : String :=
  ⟨(s.data.reverse.dropWhile (fun c => c = '/')).reverse⟩

/-- The `total=5` seconds bound of `aiohttp.ClientTimeout(total=5)` at
line 37 of `mcp_api.py`. -/
def probeTimeoutTotalSeconds : ℕ := 5

/-- Outcome of the single outbound `GET <url>/health` request: an HTTP
response with a status code and parsed JSON body, an `asyncio.TimeoutError`,
or any other exception with its message. -/
inductive HttpOutcome where
  | response (code : ℕ) (body : List (String × JVal))
  | timeout
  | exc (msg : String)
deriving Repr

/-- `get_container_status_http` (`mcp_api.py` lines 21-70).
Input: the raw `MCP_SERVER_URL` environment value and the outcome the
network would yield if probed.  Output: the returned dict, paired with a
flag saying whether the outbound request was actually performed (the code
reaches `session.get` only past the empty-URL early return). -/
def get_container_status_http (mcpServerUrlEnv : Option String)
    (net : HttpOutcome) : StatusRecord × Bool :=
  let mcp_url := rstripSlashes (mcpServerUrlEnv.getD "")
  if mcp_url.isEmpty then
    ({ status := "error", uptime := none, logs := [],
       container_status := "error",
       error := some "MCP_SERVER_URL not configured" }, false)
  else
    match net with
    | .response code body =>
        if code = 200 then
          ({ status := "running", uptime := jget body "uptime", logs := [],
             container_status := "running",
             service_info := some body }, true)
        else
          ({ status := "error", uptime := none, logs := [],
             container_status := "error",
             error := some ("MCP service returned status " ++ toString code) }, true)
    | .timeout =>
        ({ status := "error", uptime := none, logs := [],
           container_status := "timeout",
           error := some "MCP service timeout - service may be starting" }, true)
    | .exc msg =>
        ({ status := "error", uptime := none, logs := [],
           container_status := "error",
           error := some ("Failed to connect to MCP service: " ++ msg) }, true)

/-- State of the local Docker runtime as `get_container_status_docker`
observes it:
  * `importError`: the `docker` library is not installed (`except ImportError`);
  * `clientError msg`: `docker.from_env()` or the container lookup raised a
    generic exception (e.g. the daemon is not reachable) with message `msg`;
  * `notFound`: `containers.get("archon-mcp")` raised `NotFound`;
  * `container st startedAt now`: the container exists with raw Docker status
    `st`; `startedAt` is the parsed `State.StartedAt` epoch second
    (`none` when `datetime.fromisoformat` raises), `now` the current epoch
    second. -/
inductive DockerState where
  | importError
  | clientError (msg : String)
  | notFound
  | container (st : String) (startedAt : Option ℤ) (now : ℤ)
deriving Repr, DecidableEq

/-- `get_container_status_docker` (`mcp_api.py` lines 73-140). -/
def get_container_status_docker (d : DockerState) : StatusRecord :=
  match d with
  | .importError =>
      { status := "error", uptime := none, logs := [],
        container_status := "no_docker",
        error := some "Docker not available in this environment" }
  | .clientError msg =>
      { status := "error", uptime := none, logs := [],
        container_status := "error", error := some msg }
  | .notFound =>
      { status := "not_found", uptime := none, logs := [],
        container_status := "not_found",
        message := some "MCP container not found. Run: docker compose up -d archon-mcp" }
  | .container st startedAt now =>
      if st = "running" then
        { status := "running",
          uptime := startedAt.map (fun s => JVal.num ((now - s : ℤ) : ℚ)),
          logs := [], container_status := st }
      else
        { status := "stopped", uptime := none, logs := [],
          container_status := st }

/-- Which status source the resolver selected. -/
inductive ProbeBranch where
  | http
  | docker
deriving Repr, DecidableEq

/-- Result of the resolver: the record it returns, the branch it took, and
whether an outbound network request was performed. -/
structure ResolveOut where
  record : StatusRecord
  branch : ProbeBranch
  networkCalled : Bool
deriving Repr

/-- `get_container_status` (`mcp_api.py` lines 143-150):
`if os.getenv("MCP_SERVER_URL"): return await get_container_status_http()
else: return get_container_status_docker()`. -/
def get_container_status (mcpServerUrlEnv : Option String)
    (net : HttpOutcome) (d : DockerState) : ResolveOut :=
  if envTruthy mcpServerUrlEnv then
    let r := get_container_status_http mcpServerUrlEnv net
    { record := r.1, branch := .http, networkCalled := r.2 }
  else
    { record := get_container_status_docker d, branch := .docker,
      networkCalled := false }

/-- The config dict built by `get_mcp_config` (`mcp_api.py` lines 172-229). -/
structure ServiceConfig where
  host : String
  port : ℤ
  transport : String
  proxy_url : Option String := none
  deployment : String
  model_choice : String
deriving Repr, DecidableEq

/-- Python `s.replace(pat, "")`: delete every non-overlapping occurrence of
`pat`, scanning left to right.  Fuel-indexed structural recursion; fuel
`s.length` suffices because every step consumes at least one character when
`pat` is non-empty (all call sites pass a non-empty pattern). -/
def removeAllAux (pat : List Char) : ℕ → List Char → List Char
  | _, [] => []
  | 0, s => s
  | fuel + 1, c :: rest =>
      if pat.isPrefixOf (c :: rest) then
        removeAllAux pat fuel (List.drop pat.length (c :: rest))
      else
        c :: removeAllAux pat fuel rest

/-- Python `s.replace(pat, "")` on strings. -/
def pyRemoveAll (s pat : String) : String :=
  ⟨removeAllAux pat.data s.data.length s.data⟩

/-- Host extraction of line 191 of `mcp_api.py`:
`mcp_server_url.replace("http://", "").replace("https://", "").split(":")[0]`.
`split(":")[0]` is the part before the first `':'` (the whole string when
there is none). -/
def hostOfUrl (url : String) : String :=
  ⟨((pyRemoveAll (pyRemoveAll url "http://") "https://").data).takeWhile
    (fun c => c ≠ ':')⟩

/-- Python `int(s)` on the port string: an optional sign followed by one or
more decimal digits; any other input raises `ValueError`, modelled as
`none`. -/
def pyIntAux : List Char → ℕ → Option ℕ
  | [], acc => some acc
  | c :: cs, acc =>
      if c.isDigit then pyIntAux cs (acc * 10 + (c.toNat - 48)) else none

/-- Python `int(s)` (see `pyIntAux`). -/
def pyInt (s : String) : Option ℤ :=
  match s.data with
  | [] => none
  | '-' :: cs =>
      if cs.isEmpty then none
      else (pyIntAux cs 0).map (fun n => -(n : ℤ))
  | '+' :: cs =>
      if cs.isEmpty then none
      else (pyIntAux cs 0).map (fun n => (n : ℤ))
  | cs => (pyIntAux cs 0).map (fun n => (n : ℤ))

/-- `get_mcp_config` (`mcp_api.py` lines 172-229).  Inputs: the
`MCP_SERVER_URL` and `ARCHON_MCP_PORT` environment values and the outcome of
the `credential_service.get_credential("MODEL_CHOICE", ...)` call (`Except`
carries the exception message when it raises).  `int()` on the port string is
modelled by `pyInt`; its failure propagates to the outer handler, returned
here as `Except.error`. -/
def get_mcp_config (mcpServerUrlEnv archonMcpPortEnv : Option String)
    (credentialLookup : Except String String) : Except String ServiceConfig :=
  match pyInt (archonMcpPortEnv.getD "8051") with
  | none => .error "invalid literal for int()"
  | some mcp_port =>
    let config : ServiceConfig :=
      match mcpServerUrlEnv with
      | some url =>
          { host := hostOfUrl url, port := mcp_port,
            transport := "streamable-http", proxy_url := some url,
            deployment := "railway", model_choice := "" }
      | none =>
          { host := "localhost", port := mcp_port,
            transport := "streamable-http", deployment := "docker",
            model_choice := "" }
    match credentialLookup with
    | .ok v => .ok { config with model_choice := v }
    | .error _ => .ok { config with model_choice := "gpt-4o-mini" }

/-- The body of the Health Responder's `/health` endpoint
(`health_server.py` lines 22-38).  The nested `health` sub-dict is kept as
its two data-bearing fields. -/
structure HealthBody where
  status : String
  uptime : ℚ
  uptime_seconds : ℚ
  service : String
  transport : String
  timestamp : String
  health_status : String
  api_service : Bool
deriving Repr, DecidableEq

/-- `health` (`health_server.py` lines 22-38): `uptime = time.time() -
startup_time`.  `startup_time` is the module-level start timestamp, `now`
the current `time.time()` reading, `ts` the `datetime.now().isoformat()`
string. -/
def health (startup_time now : ℚ) (ts : String) : HealthBody :=
  { status := "running", uptime := now - startup_time,
    uptime_seconds := now - startup_time, service := "archon-mcp",
    transport := "sse", timestamp := ts,
    health_status := "healthy", api_service := true }

/-! ## Theorems -/

/-- C1: For every environment state, `get_container_status` uses exactly one
status source: when `MCP_SERVER_URL` is set and non-empty (truthy) the whole
result is that of the HTTP prober `get_container_status_http`, independent of
the Docker state; otherwise the whole result is that of the container
inspector `get_container_status_docker`, independent of the network, with no
outbound network call performed. -/
theorem resolver_mode_exclusive (env : Option String) (net : HttpOutcome)
    (d : DockerState) :
    ((get_container_status env net d).branch = ProbeBranch.http
      ↔ envTruthy env = true)
    ∧ (envTruthy env = true →
        get_container_status env net d =
          { record := (get_container_status_http env net).1,
            branch := .http,
            networkCalled := (get_container_status_http env net).2 })
    ∧ (envTruthy env = false →
        get_container_status env net d =
          { record := get_container_status_docker d, branch := .docker,
            networkCalled := false }) := by
  unfold get_container_status
  cases h : envTruthy env <;> simp [h]

theorem resolver_mode_exclusive_witness :
    (get_container_status (some "http://svc:8051") .timeout .importError).branch
      = ProbeBranch.http
    ∧ (get_container_status none .timeout .importError).networkCalled = false := by
  constructor
  · exact (resolver_mode_exclusive (some "http://svc:8051") .timeout
      .importError).1.mpr rfl
  · rw [(resolver_mode_exclusive none .timeout .importError).2.2 rfl]

/-- C2: For every probe of a configured non-empty URL that receives an HTTP
200 response with JSON body `body`, `get_container_status_http` returns
status `"running"`, uptime equal to the body's `"uptime"` field
(`data.get("uptime")`), and the full body attached as `service_info`, having
performed the network call. -/
theorem prober_200_running (env : Option String) (body : List (String × JVal))
    (h : (rstripSlashes (env.getD "")).isEmpty = false) :
    get_container_status_http env (.response 200 body) =
      ({ status := "running", uptime := jget body "uptime", logs := [],
         container_status := "running", service_info := some body }, true) := by
  unfold get_container_status_http
  simp [h]

theorem prober_200_running_witness :
    get_container_status_http (some "http://svc:8051")
        (.response 200 [("uptime", JVal.num (85 / 2))]) =
      ({ status := "running", uptime := some (JVal.num (85 / 2)), logs := [],
         container_status := "running",
         service_info := some [("uptime", JVal.num (85 / 2))] }, true) := by
  rw [prober_200_running (some "http://svc:8051")
    [("uptime", JVal.num (85 / 2))] (by rfl)]
  rfl

/-- C3 counterexample: the claim fixes the timeout error message as
`"probe timed out"`, but on a timed-out probe of a configured URL the code
returns `error = "MCP service timeout - service may be starting"`. -/
theorem prober_timeout_message_counterexample :
    ((get_container_status_http (some "http://svc:8051") .timeout).1).error
      ≠ some "probe timed out"
    ∧ ((get_container_status_http (some "http://svc:8051") .timeout).1).error
      = some "MCP service timeout - service may be starting" := by
  constructor
  · decide
  · rfl

/-- C3 (amended): the probe carries a 5-second total timeout bound, and for
every probe of a configured non-empty URL that times out, the prober returns
the terminal record with status `"error"`, `container_status = "timeout"` and
the timeout error message `"MCP service timeout - service may be starting"`
(not `"probe timed out"`); exactly one outcome, no retry. -/
theorem prober_timeout_terminal (env : Option String)
    (h : (rstripSlashes (env.getD "")).isEmpty = false) :
    probeTimeoutTotalSeconds = 5
    ∧ get_container_status_http env .timeout =
      ({ status := "error", uptime := none, logs := [],
         container_status := "timeout",
         error := some "MCP service timeout - service may be starting" }, true) := by
  refine ⟨rfl, ?_⟩
  unfold get_container_status_http
  simp [h]

theorem prober_timeout_terminal_witness :
    get_container_status_http (some "http://svc:8051") .timeout =
      ({ status := "error", uptime := none, logs := [],
         container_status := "timeout",
         error := some "MCP service timeout - service may be starting" }, true) :=
  (prober_timeout_terminal (some "http://svc:8051") (by rfl)).2

/-- C4: with the runtime reachable, `get_container_status_docker` returns
`not_found`/`not_found` with a guidance message when the container is absent;
`running` with uptime `now - startedAt` when it is running and the start
timestamp parsed, uptime `none` when the timestamp could not be parsed; and
`stopped` with the raw Docker state and uptime `none` when it exists but is
not running. -/
theorem inspector_found_cases :
    (get_container_status_docker .notFound =
      { status := "not_found", uptime := none, logs := [],
        container_status := "not_found",
        message := some "MCP container not found. Run: docker compose up -d archon-mcp" })
    ∧ (∀ s now : ℤ,
        get_container_status_docker (.container "running" (some s) now) =
          { status := "running", uptime := some (JVal.num ((now - s : ℤ) : ℚ)),
            logs := [], container_status := "running" })
    ∧ (∀ now : ℤ,
        get_container_status_docker (.container "running" none now) =
          { status := "running", uptime := none, logs := [],
            container_status := "running" })
    ∧ (∀ (st : String) (startedAt : Option ℤ) (now : ℤ), st ≠ "running" →
        get_container_status_docker (.container st startedAt now) =
          { status := "stopped", uptime := none, logs := [],
            container_status := st }) := by
  refine ⟨rfl, fun s now => rfl, fun now => rfl, fun st startedAt now h => ?_⟩
  unfold get_container_status_docker
  simp [h]

theorem inspector_found_cases_witness :
    get_container_status_docker (.container "exited" (some 10) 100) =
      { status := "stopped", uptime := none, logs := [],
        container_status := "exited" } :=
  inspector_found_cases.2.2.2 "exited" (some 10) 100 (by decide)

/-- C5 counterexample: the claim says an unreachable runtime daemon also
yields the distinguished `container_status = "no_docker"`, but a generic
runtime exception (e.g. `docker.from_env()` failing to reach the daemon) is
caught by the inner handler, which returns `container_status = "error"`. -/
theorem inspector_unavailable_counterexample :
    (get_container_status_docker
      (.clientError "Error while fetching server API version")).container_status
      ≠ "no_docker"
    ∧ (get_container_status_docker
      (.clientError "Error while fetching server API version")).container_status
      = "error" := by
  constructor
  · decide
  · rfl

/-- C5 (amended): only when the `docker` client library is not installed
(`ImportError`) does the inspector return status `"error"` with the
distinguished `container_status = "no_docker"` and the message
`"Docker not available in this environment"`; when the runtime daemon is not
reachable (a generic exception from the client) it returns status `"error"`
with `container_status = "error"` and the exception's message. -/
theorem inspector_unavailable_cases :
    (get_container_status_docker .importError =
      { status := "error", uptime := none, logs := [],
        container_status := "no_docker",
        error := some "Docker not available in this environment" })
    ∧ (∀ msg : String,
        get_container_status_docker (.clientError msg) =
          { status := "error", uptime := none, logs := [],
            container_status := "error", error := some msg }) :=
  ⟨rfl, fun _ => rfl⟩

/-- C6: every record the resolver returns — via either source, for every
environment, network outcome and Docker state — has a status in the closed
enum, and its uptime is non-`none` only when the status is `"running"`. -/
theorem resolver_record_invariant (env : Option String) (net : HttpOutcome)
    (d : DockerState) :
    (get_container_status env net d).record.status ∈
      ["running", "stopped", "error", "not_found", "timeout"]
    ∧ ((get_container_status env net d).record.status = "running"
        ∨ (get_container_status env net d).record.uptime = none) := by
  unfold get_container_status
  cases h : envTruthy env <;> simp [h]
  · unfold get_container_status_docker
    rcases d with _ | msg | _ | ⟨st, startedAt, now⟩ <;> simp
    by_cases hst : st = "running" <;> simp [hst]
  · unfold get_container_status_http
    by_cases he : (rstripSlashes (env.getD "")).isEmpty <;> simp [he]
    rcases net with ⟨code, body⟩ | _ | msg <;> simp
    by_cases hc : code = 200 <;> simp [hc]

/-- C7: every successful config request reports
`transport = "streamable-http"` — in the remote branch (URL present) and the
local branch (URL absent) alike — while the monitored service's own `/health`
response self-reports `transport = "sse"`; the inconsistency is preserved. -/
theorem config_transport_inconsistency (urlEnv portEnv : Option String)
    (lookup : Except String String) (cfg : ServiceConfig)
    (h : get_mcp_config urlEnv portEnv lookup = .ok cfg) :
    cfg.transport = "streamable-http"
    ∧ ∀ (startup now : ℚ) (ts : String),
        (health startup now ts).transport = "sse"
        ∧ (health startup now ts).transport ≠ cfg.transport := by
  have htr : cfg.transport = "streamable-http" := by
    unfold get_mcp_config at h
    rcases hp : pyInt (portEnv.getD "8051") with _ | port
    · rw [hp] at h; exact absurd h (by simp)
    · rw [hp] at h
      rcases urlEnv with _ | url <;> rcases lookup with e | v <;>
        simp at h <;> rw [← h]
  refine ⟨htr, fun startup now ts => ⟨rfl, ?_⟩⟩
  rw [htr]
  simp [health]

theorem config_transport_inconsistency_witness :
    (health 0 1 "t").transport
      ≠ ({ host := "svc", port := 8051, transport := "streamable-http",
           proxy_url := some "http://svc:8051", deployment := "railway",
           model_choice := "m" } : ServiceConfig).transport :=
  ((config_transport_inconsistency (some "http://svc:8051") none (.ok "m")
    { host := "svc", port := 8051, transport := "streamable-http",
      proxy_url := some "http://svc:8051", deployment := "railway",
      model_choice := "m" } (by rfl)).2 0 1 "t").2

/-- C8: for every environment, a successful credential lookup `.ok v` makes
the returned `model_choice` equal `v`; any lookup failure makes it exactly
`"gpt-4o-mini"`; and whether the overall config request succeeds is
independent of the lookup outcome (a lookup failure never fails the
request). -/
theorem config_model_choice (urlEnv portEnv : Option String) :
    (∀ (v : String) (cfg : ServiceConfig),
        get_mcp_config urlEnv portEnv (.ok v) = .ok cfg →
          cfg.model_choice = v)
    ∧ (∀ (e : String) (cfg : ServiceConfig),
        get_mcp_config urlEnv portEnv (.error e) = .ok cfg →
          cfg.model_choice = "gpt-4o-mini")
    ∧ (∀ lk lk2 : Except String String,
        (get_mcp_config urlEnv portEnv lk).toOption.isSome
          = (get_mcp_config urlEnv portEnv lk2).toOption.isSome) := by
  unfold get_mcp_config
  rcases hp : pyInt (portEnv.getD "8051") with _ | port
  · refine ⟨fun v cfg h => absurd h (by simp), fun e cfg h => absurd h (by simp),
      fun lk lk2 => rfl⟩
  · refine ⟨fun v cfg h => ?_, fun e cfg h => ?_, fun lk lk2 => ?_⟩
    · rcases urlEnv with _ | url <;> simp at h <;> rw [← h]
    · rcases urlEnv with _ | url <;> simp at h <;> rw [← h]
    · rcases urlEnv with _ | url <;> rcases lk with e1 | v1 <;>
        rcases lk2 with e2 | v2 <;> rfl

theorem config_model_choice_witness :
    ({ host := "localhost", port := 8051, transport := "streamable-http",
       deployment := "docker", model_choice := "gpt-4o-mini" }
        : ServiceConfig).model_choice = "gpt-4o-mini" :=
  (config_model_choice none none).2.1 "db down"
    { host := "localhost", port := 8051, transport := "streamable-http",
      deployment := "docker", model_choice := "gpt-4o-mini" } (by rfl)

/-- C9: within one process lifetime (fixed `startup_time`), the uptime the
Health Responder's `/health` endpoint reports is monotonically
non-decreasing: a query at clock reading `t1 ≤ t2` reports uptime
`t1 - startup ≤ t2 - startup`. -/
theorem health_uptime_monotone (startup t1 t2 : ℚ) (ts1 ts2 : String)
    (h : t1 ≤ t2) :
    (health startup t1 ts1).uptime ≤ (health startup t2 ts2).uptime := by
  simpa [health] using sub_le_sub_right h startup

theorem health_uptime_monotone_witness :
    (health 5 7 "a").uptime ≤ (health 5 11 "b").uptime :=
  health_uptime_monotone 5 7 11 "a" "b" (by norm_num)

/-- C10: for every `MCP_SERVER_URL` value that is non-empty but consists
only of `'/'` characters, the resolver selects the HTTP branch (the value is
truthy), and the prober — whose `rstrip("/")` empties the URL — returns the
`"MCP_SERVER_URL not configured"` error record without performing any
network call and without falling back to the container inspector. -/
theorem resolver_slash_only_url (s : String) (net : HttpOutcome)
    (d : DockerState) (h1 : s ≠ "") (h2 : ∀ c ∈ s.data, c = '/') :
    get_container_status (some s) net d =
      { record := { status := "error", uptime := none, logs := [],
                    container_status := "error",
                    error := some "MCP_SERVER_URL not configured" },
        branch := .http, networkCalled := false } := by
  have hie : s.isEmpty = false := by
    rw [Bool.eq_false_iff]
    intro hcontra
    exact h1 ((String.isEmpty_iff s).mp hcontra)
  have htruthy : envTruthy (some s) = true := by
    simp [envTruthy, hie]
  have hstrip : rstripSlashes s = "" := by
    unfold rstripSlashes
    have hnil : s.data.reverse.dropWhile (fun c => c = '/') = [] := by
      rw [List.dropWhile_eq_nil_iff]
      intro x hx
      simp [h2 x (List.mem_reverse.mp hx)]
    rw [hnil]
    rfl
  unfold get_container_status
  rw [htruthy]
  unfold get_container_status_http
  have hempty : "".isEmpty = true := rfl
  simp [hstrip, hempty]

theorem resolver_slash_only_url_witness :
    get_container_status (some "/") .timeout .notFound =
      { record := { status := "error", uptime := none, logs := [],
                    container_status := "error",
                    error := some "MCP_SERVER_URL not configured" },
        branch := .http, networkCalled := false } :=
  resolver_slash_only_url "/" .timeout .notFound (by decide)
    (by intro c hc; simpa using hc)
